import Mathlib

/-!
Shallow embedding of the WebSocket chat gateway of `websocket-learn`
(`src/websocket/index.js`, `src/models/Message.js`, `src/middleware/auth.js`).

The in-memory connection registry (`connectedClients`, a JS `Map` from user id
to WebSocket object) is modelled as an association list with JS `Map`
semantics (`mapGet` / `mapSet` / `mapDelete` / `mapHas`).  WebSocket objects
are modelled by `Conn`; object identity of JS sockets is the `connId` field.
The durable store (MongoDB `User` and `Message` collections) is modelled by
`Store`.  Outbound wire traffic is a list of `(connId, Envelope)` pairs,
`Envelope` being the server→client `{type, data}` unit.  Timestamps
(`new Date()`) are natural numbers supplied as a `now` argument.
-/

namespace WsChat

/-- The `readyState` of a WebSocket; the code only ever tests
`readyState === WebSocket.OPEN`. -/
inductive ReadyState where
  | OPEN
  | CLOSING
  | CLOSED
deriving DecidableEq, Repr

/-- A live WebSocket connection after the server attached its metadata
(`ws.userId`, `ws.username`).  `connId` stands for JS object identity of
the socket. -/
structure Conn where
  connId : Nat
  userId : String
  username : String
  readyState : ReadyState
deriving DecidableEq, Repr

/-- A socket before authentication: no user metadata attached yet. -/
structure RawConn where
  connId : Nat
  readyState : ReadyState
deriving DecidableEq, Repr

/-- Delivery status of a persisted message (`Message.js`, `status` field,
enum `['sent', 'delivered', 'read']`). -/
inductive MsgStatus where
  | sent
  | delivered
  | read
deriving DecidableEq, Repr

/-- Position of a status in the `sent → delivered → read` order. -/
def MsgStatus.rank : MsgStatus → Nat
  | .sent => 0
  | .delivered => 1
  | .read => 2

/-- A persisted chat message (`Message.js` schema).  `id` models the
Mongo `_id`, `createdAt` the `timestamps: true` option. -/
structure Message where
  id : Nat
  sender : String
  receiver : String
  content : String
  messageType : String
  isRead : Bool
  readAt : Option Nat
  status : MsgStatus
  createdAt : Nat
deriving DecidableEq, Repr

/-- A persisted user record (`User.js`; only the fields the WebSocket
module touches: `_id`, `username`, `isOnline`, `lastSeen`). -/
structure UserRec where
  id : String
  username : String
  isOnline : Bool
  lastSeen : Option Nat
deriving DecidableEq, Repr

/-- The durable store (MongoDB): users and messages.  `nextId` models the
generator of fresh message `_id`s. -/
structure Store where
  users : List UserRec
  messages : List Message
  nextId : Nat
deriving DecidableEq, Repr

/-- Server→client envelopes (the `{type, data}` shapes built in
`src/websocket/index.js`).  Payload fields irrelevant to control flow are
kept as plain values. -/
inductive Envelope where
  | connectionEstablished (userId username : String)
  | newMessage (messageId : Nat) (senderId senderUsername content messageType : String)
      (createdAt : Nat)
  | messageSent (messageId : Nat) (receiverId content : String) (createdAt : Nat)
      (status : MsgStatus)
  | messageDelivered (messageId : Nat) (deliveredAt : Nat)
  | messagesRead (readBy readByUsername : String) (readAt : Nat)
  | markReadSuccess (senderId : String) (markedCount : Nat)
  | typingIndicator (userId username : String) (isTyping : Bool)
  | onlineUsers (users : List String) (totalOnline : Nat) (timestamp : Nat)
  | userOnline (userId username : String) (timestamp : Nat)
  | userOffline (userId username : String) (timestamp : Nat)
  | error (message : String) (timestamp : Nat)
deriving DecidableEq, Repr

/-- Connection-level events produced by the handshake and disconnect logic:
`sent` is a wire send to a socket, `closedConn` is `ws.close(code, …)`,
`registered` is `connectedClients.set`, `presence` is the
`User.findByIdAndUpdate(…, { isOnline })` call. -/
inductive Ev where
  | sent (connId : Nat) (e : Envelope)
  | closedConn (connId : Nat) (code : Nat)
  | registered (userId : String) (connId : Nat)
  | presence (userId : String) (online : Bool)
deriving DecidableEq, Repr

/-- Turn a `(connId, envelope)` send into an event. -/
def sendEv (p : Nat × Envelope) : Ev := Ev.sent p.1 p.2

/-! ## The connection registry (`connectedClients`, a JS `Map`) -/

/-- The registry: association list from user id to socket, with JS `Map`
semantics (keys unique in any state the code can reach). -/
abbrev RegMap := List (String × Conn)

/-- `Map.prototype.get`. -/
def mapGet (m : RegMap) (k : String) : Option Conn :=
  (m.find? (fun p => p.1 == k)).map (fun p => p.2)

/-- `Map.prototype.has`. -/
def mapHas (m : RegMap) (k : String) : Bool :=
  (mapGet m k).isSome

/-- `Map.prototype.set`: replace the entry in place if the key is present,
else append. -/
def mapSet : RegMap → String → Conn → RegMap
  | [], k, v => [(k, v)]
  | (k', v') :: rest, k, v =>
      if k' == k then (k, v) :: rest else (k', v') :: mapSet rest k v

/-- `Map.prototype.delete`: remove the entry for the key (a `Map` holds at
most one). -/
def mapDelete : RegMap → String → RegMap
  | [], _ => []
  | (k', v') :: rest, k =>
      if k' == k then rest else (k', v') :: mapDelete rest k

/-- The registry states reachable by the code: the only two mutations of
`connectedClients` in the source are `set` (connection handler, after
auth) and `delete` (close handler). -/
inductive RegReachable : RegMap → Prop where
  | init : RegReachable []
  | register (m : RegMap) (k : String) (v : Conn) :
      RegReachable m → RegReachable (mapSet m k v)
  | deregister (m : RegMap) (k : String) :
      RegReachable m → RegReachable (mapDelete m k)

/-! ## Utility functions (`sendToClient`, `sendError`, broadcasts) -/

/-- `sendToClient`: sends only when `ws.readyState === WebSocket.OPEN`. -/
def sendToClient (c : Conn) (e : Envelope) : List (Nat × Envelope) :=
  if c.readyState = ReadyState.OPEN then [(c.connId, e)] else []

/-- `sendError`: wraps the message in an `error` envelope. -/
def sendError (c : Conn) (msg : String) (now : Nat) : List (Nat × Envelope) :=
  sendToClient c (Envelope.error msg now)

/-- View of a raw (not yet authenticated) socket as a send target. -/
def rawAsConn (r : RawConn) : Conn :=
  { connId := r.connId, userId := "", username := "", readyState := r.readyState }

/-- `broadcastUserStatus`: `wss.clients.forEach`, sending `user_online` /
`user_offline` to every client that is `OPEN` and whose `userId` differs
from the subject. -/
def broadcastUserStatus (userId username : String) (isOnline : Bool)
    (wss : List Conn) (now : Nat) : List (Nat × Envelope) :=
  let msg := if isOnline then Envelope.userOnline userId username now
             else Envelope.userOffline userId username now
  wss.foldl
    (fun acc client =>
      if client.readyState = ReadyState.OPEN ∧ client.userId ≠ userId then
        acc ++ [(client.connId, msg)]
      else acc)
    []

/-- The online users the store reports (`User.find({ isOnline: true })`). -/
def onlineUsersOf (st : Store) : List UserRec :=
  st.users.filter (fun u => u.isOnline)

/-- `broadcastOnlineUsers`: queries the store for all online users and
pushes `online_users` to every `OPEN` client (no exclusion). -/
def broadcastOnlineUsers (wss : List Conn) (st : Store) (now : Nat) :
    List (Nat × Envelope) :=
  let users := onlineUsersOf st
  let msg := Envelope.onlineUsers (users.map (fun u => u.id)) users.length now
  wss.foldl
    (fun acc client =>
      if client.readyState = ReadyState.OPEN then acc ++ [(client.connId, msg)]
      else acc)
    []

/-- `sendOnlineUsersToClient`: the same `online_users` payload, to one
client. -/
def sendOnlineUsersToClient (ws : Conn) (st : Store) (now : Nat) :
    List (Nat × Envelope) :=
  let users := onlineUsersOf st
  sendToClient ws (Envelope.onlineUsers (users.map (fun u => u.id)) users.length now)

/-! ## Durable-store operations -/

/-- `User.findById` on the store. -/
def findUser (st : Store) (uid : String) : Option UserRec :=
  st.users.find? (fun u => u.id == uid)

/-- `User.findByIdAndUpdate(uid, { isOnline, lastSeen? })`; `none` for
`newLastSeen` means the field is not part of the update. -/
def setPresence (st : Store) (uid : String) (online : Bool)
    (newLastSeen : Option Nat) : Store :=
  { st with
    users := st.users.map (fun u =>
      if u.id == uid then
        { u with
          isOnline := online,
          lastSeen := match newLastSeen with
            | some t => some t
            | none => u.lastSeen }
      else u) }

/-- `Message.findByIdAndUpdate(mid, { status })`. -/
def updateMessageStatus (st : Store) (mid : Nat) (s : MsgStatus) : Store :=
  { st with
    messages := st.messages.map (fun m =>
      if m.id == mid then { m with status := s } else m) }

/-- The filter of `Message.markAsRead`: sender, receiver and
`isRead: false`. -/
def unreadFrom (senderId receiverId : String) (m : Message) : Bool :=
  m.sender == senderId && m.receiver == receiverId && m.isRead == false

/-- `Message.markAsRead(senderId, receiverId)`: `updateMany` setting
`isRead: true, readAt: now, status: 'read'` on every matching message;
returns the updated store and `modifiedCount`. -/
def markAsRead (st : Store) (senderId receiverId : String) (now : Nat) :
    Store × Nat :=
  ({ st with
     messages := st.messages.map (fun m =>
       if unreadFrom senderId receiverId m then
         { m with isRead := true, readAt := some now, status := MsgStatus.read }
       else m) },
   st.messages.countP (unreadFrom senderId receiverId))

/-! ## Inbound envelopes and the message router -/

/-- The `data` object of an inbound envelope.  `Option` distinguishes a
present field from JS `undefined`. -/
structure MsgData where
  receiverId : Option String
  content : Option String
  messageType : Option String
  senderId : Option String
deriving DecidableEq, Repr

/-- An inbound `{type, data}` wire message. -/
structure WireMsg where
  type : String
  data : MsgData
deriving DecidableEq, Repr

/-- JS falsiness of an optional string field (`!x` is true exactly for
`undefined` and the empty string). -/
def jsFalsy : Option String → Bool
  | none => true
  | some s => s.isEmpty

/-- Result of a steady-state handler: the store afterwards and the sends
it produced, in order. -/
structure HandlerResult where
  store : Store
  sends : List (Nat × Envelope)
deriving DecidableEq, Repr

/-- `handleChatMessage`: validate, persist with `status: 'sent'`, confirm
`message_sent` to the sender, and when the registry resolves the receiver
to an `OPEN` socket, push `new_message`, update the stored message to
`delivered` and notify the sender with `message_delivered`. -/
def handleChatMessage (ws : Conn) (data : MsgData) (clients : RegMap)
    (st : Store) (now : Nat) : HandlerResult :=
  if jsFalsy data.receiverId || jsFalsy data.content then
    { store := st,
      sends := sendError ws "Missing required fields: receiverId and content" now }
  else
    let receiverId := data.receiverId.getD ""
    let content := data.content.getD ""
    let messageType := data.messageType.getD "text"
    if receiverId = ws.userId then
      { store := st, sends := sendError ws "Cannot send message to yourself" now }
    else
      let newMessage : Message :=
        { id := st.nextId, sender := ws.userId, receiver := receiverId,
          content := content, messageType := messageType, isRead := false,
          readAt := none, status := MsgStatus.sent, createdAt := now }
      let st1 : Store :=
        { st with messages := st.messages ++ [newMessage], nextId := st.nextId + 1 }
      let confirm :=
        sendToClient ws
          (Envelope.messageSent newMessage.id receiverId content now MsgStatus.sent)
      match mapGet clients receiverId with
      | some rc =>
          if rc.readyState = ReadyState.OPEN then
            let deliver :=
              sendToClient rc
                (Envelope.newMessage newMessage.id ws.userId ws.username content
                  messageType now)
            let st2 := updateMessageStatus st1 newMessage.id MsgStatus.delivered
            let notify :=
              sendToClient ws (Envelope.messageDelivered newMessage.id now)
            { store := st2, sends := confirm ++ deliver ++ notify }
          else
            { store := st1, sends := confirm }
      | none => { store := st1, sends := confirm }

/-- `handleTypingIndicator`: relay `typing_indicator` to the receiver only
when the registry resolves to an `OPEN` socket. -/
def handleTypingIndicator (ws : Conn) (data : MsgData) (clients : RegMap)
    (isTyping : Bool) (now : Nat) : List (Nat × Envelope) :=
  if jsFalsy data.receiverId then
    sendError ws "Missing required field: receiverId" now
  else
    match mapGet clients (data.receiverId.getD "") with
    | some rc =>
        if rc.readyState = ReadyState.OPEN then
          sendToClient rc (Envelope.typingIndicator ws.userId ws.username isTyping)
        else []
    | none => []

/-- `handleMarkRead`: bulk-mark unread messages from `senderId` to the
requester, notify the counter-party when online, and confirm
`mark_read_success` with the modified count. -/
def handleMarkRead (ws : Conn) (data : MsgData) (clients : RegMap)
    (st : Store) (now : Nat) : HandlerResult :=
  if jsFalsy data.senderId then
    { store := st, sends := sendError ws "Missing required field: senderId" now }
  else
    let senderId := data.senderId.getD ""
    let res := markAsRead st senderId ws.userId now
    let notif :=
      match mapGet clients senderId with
      | some sc =>
          if sc.readyState = ReadyState.OPEN then
            sendToClient sc (Envelope.messagesRead ws.userId ws.username now)
          else []
      | none => []
    { store := res.1,
      sends := notif ++ sendToClient ws (Envelope.markReadSuccess senderId res.2) }

/-- `handleMessage`: the router's dispatch on the `type` tag. -/
def handleMessage (ws : Conn) (msg : WireMsg) (clients : RegMap) (st : Store)
    (now : Nat) : HandlerResult :=
  if msg.type = "chat_message" then
    handleChatMessage ws msg.data clients st now
  else if msg.type = "typing_start" then
    { store := st, sends := handleTypingIndicator ws msg.data clients true now }
  else if msg.type = "typing_stop" then
    { store := st, sends := handleTypingIndicator ws msg.data clients false now }
  else if msg.type = "mark_read" then
    handleMarkRead ws msg.data clients st now
  else if msg.type = "get_online_users" then
    { store := st, sends := sendOnlineUsersToClient ws st now }
  else
    { store := st, sends := sendError ws ("Unknown message type: " ++ msg.type) now }

/-! ## Handshake and disconnect -/

/-- Result of a connection-lifecycle step: registry, store and the ordered
event trace. -/
structure StepResult where
  clients : RegMap
  store : Store
  events : List Ev
deriving Repr

/-- The connection handler (`wss.on('connection')`): token extraction and
verification, user lookup, eviction of a prior connection for the same
identity (close code 4005) before `connectedClients.set`, presence update,
welcome envelope, and the two presence broadcasts.  `verify` is the
credential verifier (returns the decoded user id), `dbError` models a
thrown `User.findById` rejection. -/
def handshake (token : Option String) (verify : String → Option String)
    (dbError : Bool) (raw : RawConn) (clients : RegMap) (wss : List Conn)
    (st : Store) (now : Nat) : StepResult :=
  match token with
  | none =>
      { clients := clients, store := st,
        events :=
          (sendError (rawAsConn raw)
            "Authentication required. Please provide a valid token." now).map sendEv
          ++ [Ev.closedConn raw.connId 4001] }
  | some t =>
      match verify t with
      | none =>
          { clients := clients, store := st,
            events :=
              (sendError (rawAsConn raw)
                "Invalid or expired token. Please login again." now).map sendEv
              ++ [Ev.closedConn raw.connId 4002] }
      | some uid =>
          if dbError then
            { clients := clients, store := st,
              events :=
                (sendError (rawAsConn raw)
                  "Server error during authentication." now).map sendEv
                ++ [Ev.closedConn raw.connId 4004] }
          else
            match findUser st uid with
            | none =>
                { clients := clients, store := st,
                  events :=
                    (sendError (rawAsConn raw) "User not found." now).map sendEv
                    ++ [Ev.closedConn raw.connId 4003] }
            | some user =>
                let ws : Conn :=
                  { connId := raw.connId, userId := user.id,
                    username := user.username, readyState := raw.readyState }
                let evict : List Ev :=
                  match mapGet clients ws.userId with
                  | some old => [Ev.closedConn old.connId 4005]
                  | none => []
                let clients1 := mapSet clients ws.userId ws
                let st1 := setPresence st ws.userId true none
                { clients := clients1, store := st1,
                  events :=
                    evict
                    ++ [Ev.registered ws.userId ws.connId,
                        Ev.presence ws.userId true]
                    ++ (sendToClient ws
                        (Envelope.connectionEstablished ws.userId ws.username)).map
                          sendEv
                    ++ (broadcastUserStatus ws.userId ws.username true wss now).map
                          sendEv
                    ++ (broadcastOnlineUsers wss st1 now).map sendEv }

/-- The close handler (`ws.on('close')`): unconditional
`connectedClients.delete(ws.userId)`, presence flip with `lastSeen`,
offline broadcast, snapshot refresh. -/
def handleClose (ws : Conn) (clients : RegMap) (wss : List Conn) (st : Store)
    (now : Nat) : StepResult :=
  let clients1 := mapDelete clients ws.userId
  let st1 := setPresence st ws.userId false (some now)
  { clients := clients1, store := st1,
    events :=
      [Ev.presence ws.userId false]
      ++ (broadcastUserStatus ws.userId ws.username false wss now).map sendEv
      ++ (broadcastOnlineUsers wss st1 now).map sendEv }

/-! ## Registry lemmas -/

theorem mapGet_eq_none_of_not_mem (m : RegMap) (k : String)
    (h : k ∉ m.map Prod.fst) : mapGet m k = none := by
  induction m with
  | nil => rfl
  | cons p rest ih =>
      simp only [List.map_cons, List.mem_cons, not_or] at h
      have h1 : (p.1 == k) = false := by
        simp only [beq_eq_false_iff_ne, ne_eq]
        exact fun e => h.1 e.symm
      simp only [mapGet, List.find?, h1] at ih ⊢
      exact ih h.2

theorem mapGet_mapSet_self (m : RegMap) (k : String) (v : Conn) :
    mapGet (mapSet m k v) k = some v := by
  induction m with
  | nil => simp [mapSet, mapGet, List.find?]
  | cons p rest ih =>
      obtain ⟨k', v'⟩ := p
      by_cases hk : (k' == k) = true
      · simp [mapSet, hk, mapGet, List.find?]
      · simp only [Bool.not_eq_true] at hk
        simp only [mapSet, hk, Bool.false_eq_true, if_false]
        simp only [mapGet, List.find?, hk] at ih ⊢
        exact ih

theorem mapDelete_sublist (m : RegMap) (k : String) :
    List.Sublist (mapDelete m k) m := by
  induction m with
  | nil => exact List.Sublist.refl []
  | cons p rest ih =>
      obtain ⟨k', v'⟩ := p
      by_cases h : (k' == k) = true
      · simp only [mapDelete, h, if_true]
        exact List.sublist_cons_self (k', v') rest
      · simp only [Bool.not_eq_true] at h
        simp only [mapDelete, h, Bool.false_eq_true, if_false]
        exact List.Sublist.cons₂ (k', v') ih

theorem nodup_keys_mapDelete (m : RegMap) (k : String)
    (h : (m.map Prod.fst).Nodup) : ((mapDelete m k).map Prod.fst).Nodup :=
  h.sublist ((mapDelete_sublist m k).map Prod.fst)

theorem mem_keys_mapSet (m : RegMap) (k a : String) (v : Conn)
    (h : a ∈ (mapSet m k v).map Prod.fst) : a ∈ m.map Prod.fst ∨ a = k := by
  induction m with
  | nil =>
      right
      simpa [mapSet] using h
  | cons p rest ih =>
      obtain ⟨k', v'⟩ := p
      by_cases hk : (k' == k) = true
      · simp only [mapSet, hk, if_true, List.map_cons, List.mem_cons] at h
        rcases h with h | h
        · right; exact h
        · left; simp [h]
      · simp only [Bool.not_eq_true] at hk
        simp only [mapSet, hk, Bool.false_eq_true, if_false, List.map_cons,
          List.mem_cons] at h
        rcases h with h | h
        · left; simp [h]
        · rcases ih h with h2 | h2
          · left; simp [h2]
          · right; exact h2

theorem nodup_keys_mapSet (m : RegMap) (k : String) (v : Conn)
    (h : (m.map Prod.fst).Nodup) : ((mapSet m k v).map Prod.fst).Nodup := by
  induction m with
  | nil => simp [mapSet]
  | cons p rest ih =>
      obtain ⟨k', v'⟩ := p
      simp only [List.map_cons, List.nodup_cons] at h
      by_cases hk : (k' == k) = true
      · have hk2 : k' = k := by simpa using hk
        subst hk2
        have he : mapSet ((k', v') :: rest) k' v = (k', v) :: rest := by
          simp [mapSet]
        rw [he]
        simp only [List.map_cons, List.nodup_cons]
        exact ⟨h.1, h.2⟩
      · simp only [Bool.not_eq_true] at hk
        have hkne : k' ≠ k := by simpa using hk
        simp only [mapSet, hk, Bool.false_eq_true, if_false, List.map_cons,
          List.nodup_cons]
        refine ⟨fun hmem => ?_, ih h.2⟩
        rcases mem_keys_mapSet rest k k' v hmem with h2 | h2
        · exact h.1 h2
        · exact hkne h2

theorem regReachable_nodup (m : RegMap) (h : RegReachable m) :
    (m.map Prod.fst).Nodup := by
  induction h with
  | init => simp
  | register m k v _ ih => exact nodup_keys_mapSet m k v ih
  | deregister m k _ ih => exact nodup_keys_mapDelete m k ih

theorem mapGet_mapDelete_self (m : RegMap) (k : String)
    (h : (m.map Prod.fst).Nodup) : mapGet (mapDelete m k) k = none := by
  induction m with
  | nil => rfl
  | cons p rest ih =>
      obtain ⟨k', v'⟩ := p
      simp only [List.map_cons, List.nodup_cons] at h
      by_cases hk : (k' == k) = true
      · have hk2 : k' = k := by simpa using hk
        subst hk2
        have he : mapDelete ((k', v') :: rest) k' = rest := by
          simp [mapDelete]
        rw [he]
        exact mapGet_eq_none_of_not_mem rest k' h.1
      · simp only [Bool.not_eq_true] at hk
        simp only [mapDelete, hk, Bool.false_eq_true, if_false]
        simpa [mapGet, List.find?, hk] using ih h.2

theorem countP_keys_le_one (m : RegMap) (u : String)
    (h : (m.map Prod.fst).Nodup) : m.countP (fun p => p.1 == u) ≤ 1 := by
  have h2 : m.countP (fun p => p.1 == u)
      = (m.map Prod.fst).countP (fun s => s == u) := by
    rw [List.countP_map]
    rfl
  rw [h2]
  have h3 := List.nodup_iff_count_le_one.mp h u
  simpa [List.count] using h3

/-! ## Claim theorems -/

/-- C1: every reachable state of `connectedClients` stores at most one
connection per identity; and when a second connection completes the
handshake for an identity that already has a registered connection, the
prior connection is closed with the supersession code 4005 before the new
connection is installed (first two events of the handshake trace), after
which a registry lookup for that identity resolves to the second
connection. -/
theorem c1_one_connection_per_identity :
    (∀ m : RegMap, RegReachable m → ∀ u : String,
        m.countP (fun p => p.1 == u) ≤ 1) ∧
    (∀ (t : String) (verify : String → Option String) (raw : RawConn)
        (clients : RegMap) (wss : List Conn) (st : Store) (now : Nat)
        (uid : String) (user : UserRec) (old : Conn),
        verify t = some uid →
        findUser st uid = some user →
        mapGet clients user.id = some old →
        (handshake (some t) verify false raw clients wss st now).events.take 2
            = [Ev.closedConn old.connId 4005,
               Ev.registered user.id raw.connId] ∧
        mapGet (handshake (some t) verify false raw clients wss st now).clients
            user.id
          = some { connId := raw.connId, userId := user.id,
                   username := user.username, readyState := raw.readyState }) := by
  constructor
  · intro m hm u
    exact countP_keys_le_one m u (regReachable_nodup m hm)
  · intro t verify raw clients wss st now uid user old hv hf hold
    constructor
    · simp [handshake, hv, hf, hold]
    · simp [handshake, hv, hf, hold, mapGet_mapSet_self]

/-- Witness for C1 at a concrete input: a reachable one-entry registry, and
a second handshake for the already-registered identity `u1`. -/
theorem c1_one_connection_per_identity_witness :
    ((mapSet [] "u1"
        { connId := 1, userId := "u1", username := "alice",
          readyState := ReadyState.OPEN }).countP (fun p => p.1 == "u1") ≤ 1) ∧
    ((handshake (some "tok")
        (fun t => if t = "tok" then some "u1" else none) false
        { connId := 2, readyState := ReadyState.OPEN }
        [("u1", { connId := 1, userId := "u1", username := "alice",
                  readyState := ReadyState.OPEN })]
        []
        { users := [{ id := "u1", username := "alice", isOnline := true,
                      lastSeen := none }],
          messages := [], nextId := 0 }
        5).events.take 2
      = [Ev.closedConn 1 4005, Ev.registered "u1" 2]) := by
  have h := c1_one_connection_per_identity
  refine ⟨h.1 _ (RegReachable.register [] "u1" _ RegReachable.init) "u1", ?_⟩
  exact (h.2 "tok" (fun t => if t = "tok" then some "u1" else none)
    { connId := 2, readyState := ReadyState.OPEN }
    [("u1", { connId := 1, userId := "u1", username := "alice",
              readyState := ReadyState.OPEN })]
    []
    { users := [{ id := "u1", username := "alice", isOnline := true,
                  lastSeen := none }],
      messages := [], nextId := 0 }
    5 "u1"
    { id := "u1", username := "alice", isOnline := true, lastSeen := none }
    { connId := 1, userId := "u1", username := "alice",
      readyState := ReadyState.OPEN }
    (by decide) (by decide) (by decide)).1

/-! ### C2: the deregistration guard

The spec claims `deregister` removes the entry only when the stored
connection is the closing one.  The close handler in the source
(`connectedClients.delete(ws.userId)`) has no such guard: it deletes by
identity unconditionally, so a late close event of an evicted connection
also removes the newer connection's entry.  The following concrete run
exhibits this. -/

/-- Credential verifier of the C2 scenario. -/
def cexVerify : String → Option String :=
  fun t => if t = "tok" then some "u1" else none

/-- Store of the C2 scenario: a single user `u1`. -/
def cexStore : Store :=
  { users := [{ id := "u1", username := "alice", isOnline := false,
                lastSeen := none }],
    messages := [], nextId := 0 }

/-- The first (older) connection of user `u1`, as registered. -/
def cexOldConn : Conn :=
  { connId := 1, userId := "u1", username := "alice",
    readyState := ReadyState.OPEN }

/-- The second (newer) connection of user `u1`, as registered. -/
def cexNewConn : Conn :=
  { connId := 2, userId := "u1", username := "alice",
    readyState := ReadyState.OPEN }

/-- First handshake: connection 1 registers for `u1`. -/
def cexHs1 : StepResult :=
  handshake (some "tok") cexVerify false
    { connId := 1, readyState := ReadyState.OPEN } [] [] cexStore 0

/-- Second handshake: connection 2 registers for `u1`, evicting
connection 1. -/
def cexHs2 : StepResult :=
  handshake (some "tok") cexVerify false
    { connId := 2, readyState := ReadyState.OPEN }
    cexHs1.clients [cexOldConn] cexHs1.store 1

/-- C2 counterexample: after the second handshake the registry resolves
`u1` to connection 2 and connection 1 was closed with code 4005; but when
connection 1's close event then fires, the close handler removes `u1`'s
entry entirely — the newer connection's registry entry is not left
unchanged, refuting the claimed guard. -/
theorem c2_counterexample :
    mapGet cexHs2.clients "u1" = some cexNewConn ∧
    Ev.closedConn 1 4005 ∈ cexHs2.events ∧
    mapGet (handleClose cexOldConn cexHs2.clients [cexNewConn]
        cexHs2.store 2).clients "u1" = none ∧
    ¬ mapGet (handleClose cexOldConn cexHs2.clients [cexNewConn]
        cexHs2.store 2).clients "u1" = some cexNewConn := by
  refine ⟨by decide, by decide, by decide, by decide⟩

/-- C2 (amended): deregistration is unconditional — the close handler
always deletes the closing connection's identity from the registry,
whatever connection is stored there; in particular a late close event of
an evicted old connection removes the newer connection's entry, leaving
the identity with no registered connection. -/
theorem c2_deregistration_unconditional (ws : Conn) (clients : RegMap)
    (wss : List Conn) (st : Store) (now : Nat)
    (h : (clients.map Prod.fst).Nodup) :
    mapGet (handleClose ws clients wss st now).clients ws.userId = none := by
  simpa [handleClose] using mapGet_mapDelete_self clients ws.userId h

/-- Witness for the amended C2 at the concrete scenario. -/
theorem c2_deregistration_unconditional_witness :
    mapGet (handleClose cexOldConn [("u1", cexNewConn)] [cexNewConn]
        cexStore 2).clients "u1" = none :=
  c2_deregistration_unconditional cexOldConn [("u1", cexNewConn)]
    [cexNewConn] cexStore 2 (by decide)

/-- C3: a valid `chat_message` to a receiver whose registered connection is
open sends, on the sender's channel and in this order, `message_sent` then
`message_delivered`; sends exactly one `new_message` on the receiver's
channel; and leaves the persisted message with status `delivered` (created
`sent`, then updated on delivery). -/
theorem c3_online_delivery (ws rc : Conn) (data : MsgData) (clients : RegMap)
    (st : Store) (now : Nat)
    (hws : ws.readyState = ReadyState.OPEN)
    (hrid : jsFalsy data.receiverId = false)
    (hcontent : jsFalsy data.content = false)
    (hself : ¬ data.receiverId.getD "" = ws.userId)
    (hreg : mapGet clients (data.receiverId.getD "") = some rc)
    (hrc : rc.readyState = ReadyState.OPEN)
    (hdiff : ¬ rc.connId = ws.connId) :
    (((handleChatMessage ws data clients st now).sends.filter
        (fun p => p.1 == ws.connId)).map Prod.snd
      = [Envelope.messageSent st.nextId (data.receiverId.getD "")
           (data.content.getD "") now MsgStatus.sent,
         Envelope.messageDelivered st.nextId now]) ∧
    (((handleChatMessage ws data clients st now).sends.filter
        (fun p => p.1 == rc.connId)).map Prod.snd
      = [Envelope.newMessage st.nextId ws.userId ws.username
           (data.content.getD "") (data.messageType.getD "text") now]) ∧
    (∃ m ∈ (handleChatMessage ws data clients st now).store.messages,
        m.id = st.nextId ∧ m.sender = ws.userId ∧
        m.receiver = data.receiverId.getD "" ∧
        m.status = MsgStatus.delivered) := by
  have hcond : (jsFalsy data.receiverId || jsFalsy data.content) = false := by
    simp [hrid, hcontent]
  have hb1 : (ws.connId == ws.connId) = true := by simp
  have hb2 : (rc.connId == ws.connId) = false := by
    simpa using hdiff
  have hb3 : (ws.connId == rc.connId) = false := by
    simp only [beq_eq_false_iff_ne, ne_eq]
    exact fun e => hdiff e.symm
  simp only [handleChatMessage, hcond, Bool.false_eq_true, if_false,
    if_neg hself, hreg, hrc, if_true, sendToClient, hws]
  refine ⟨?_, ?_, ?_⟩
  · simp [List.filter, hb1, hb2]
  · simp [List.filter, hb2, hb3]
  · refine ⟨{ id := st.nextId, sender := ws.userId,
              receiver := data.receiverId.getD "",
              content := data.content.getD "",
              messageType := data.messageType.getD "text", isRead := false,
              readAt := none, status := MsgStatus.delivered,
              createdAt := now },
      ?_, rfl, rfl, rfl, rfl⟩
    simp only [updateMessageStatus]
    refine List.mem_map.mpr
      ⟨{ id := st.nextId, sender := ws.userId,
         receiver := data.receiverId.getD "",
         content := data.content.getD "",
         messageType := data.messageType.getD "text", isRead := false,
         readAt := none, status := MsgStatus.sent, createdAt := now },
       List.mem_append_right _ (List.mem_singleton.mpr rfl), ?_⟩
    simp

/-- Witness for C3: user `a1` sends "hi" to online user `b1`. -/
theorem c3_online_delivery_witness :
    (((handleChatMessage
        { connId := 1, userId := "a1", username := "ann",
          readyState := ReadyState.OPEN }
        { receiverId := some "b1", content := some "hi",
          messageType := none, senderId := none }
        [("b1", { connId := 2, userId := "b1", username := "bob",
                  readyState := ReadyState.OPEN })]
        { users := [], messages := [], nextId := 0 } 7).sends.filter
        (fun p => p.1 == 1)).map Prod.snd
      = [Envelope.messageSent 0 "b1" "hi" 7 MsgStatus.sent,
         Envelope.messageDelivered 0 7]) ∧
    (∃ m ∈ (handleChatMessage
        { connId := 1, userId := "a1", username := "ann",
          readyState := ReadyState.OPEN }
        { receiverId := some "b1", content := some "hi",
          messageType := none, senderId := none }
        [("b1", { connId := 2, userId := "b1", username := "bob",
                  readyState := ReadyState.OPEN })]
        { users := [], messages := [], nextId := 0 } 7).store.messages,
        m.id = 0 ∧ m.sender = "a1" ∧ m.receiver = "b1" ∧
        m.status = MsgStatus.delivered) := by
  have h := c3_online_delivery
    { connId := 1, userId := "a1", username := "ann",
      readyState := ReadyState.OPEN }
    { connId := 2, userId := "b1", username := "bob",
      readyState := ReadyState.OPEN }
    { receiverId := some "b1", content := some "hi", messageType := none,
      senderId := none }
    [("b1", { connId := 2, userId := "b1", username := "bob",
              readyState := ReadyState.OPEN })]
    { users := [], messages := [], nextId := 0 } 7
    (by decide) (by decide) (by decide) (by decide) (by decide) (by decide)
    (by decide)
  exact ⟨h.1, h.2.2⟩

/-- C4: a valid `chat_message` whose receiver has no open registered
connection produces exactly one send — `message_sent` to the sender — and
appends one persisted message with status `sent`, `isRead` false and no
`readAt`, leaving all prior messages untouched. -/
theorem c4_offline_persist (ws : Conn) (data : MsgData) (clients : RegMap)
    (st : Store) (now : Nat)
    (hws : ws.readyState = ReadyState.OPEN)
    (hrid : jsFalsy data.receiverId = false)
    (hcontent : jsFalsy data.content = false)
    (hself : ¬ data.receiverId.getD "" = ws.userId)
    (hoff : ∀ rc, mapGet clients (data.receiverId.getD "") = some rc →
        ¬ rc.readyState = ReadyState.OPEN) :
    (handleChatMessage ws data clients st now).sends
      = [(ws.connId,
          Envelope.messageSent st.nextId (data.receiverId.getD "")
            (data.content.getD "") now MsgStatus.sent)] ∧
    (handleChatMessage ws data clients st now).store.messages
      = st.messages ++
        [{ id := st.nextId, sender := ws.userId,
           receiver := data.receiverId.getD "",
           content := data.content.getD "",
           messageType := data.messageType.getD "text", isRead := false,
           readAt := none, status := MsgStatus.sent, createdAt := now }] := by
  have hcond : (jsFalsy data.receiverId || jsFalsy data.content) = false := by
    simp [hrid, hcontent]
  rcases hc : mapGet clients (data.receiverId.getD "") with _ | rc
  · constructor
    · simp [handleChatMessage, hcond, if_neg hself, hc, sendToClient, hws]
    · simp [handleChatMessage, hcond, if_neg hself, hc]
  · have hrc := hoff rc hc
    constructor
    · simp [handleChatMessage, hcond, if_neg hself, hc, if_neg hrc,
        sendToClient, hws]
    · simp [handleChatMessage, hcond, if_neg hself, hc, if_neg hrc]

/-- Witness for C4: user `a1` sends "hi" to `b1`, who has no registered
connection. -/
theorem c4_offline_persist_witness :
    (handleChatMessage
      { connId := 1, userId := "a1", username := "ann",
        readyState := ReadyState.OPEN }
      { receiverId := some "b1", content := some "hi", messageType := none,
        senderId := none }
      [] { users := [], messages := [], nextId := 0 } 7).sends
      = [(1, Envelope.messageSent 0 "b1" "hi" 7 MsgStatus.sent)] ∧
    (handleChatMessage
      { connId := 1, userId := "a1", username := "ann",
        readyState := ReadyState.OPEN }
      { receiverId := some "b1", content := some "hi", messageType := none,
        senderId := none }
      [] { users := [], messages := [], nextId := 0 } 7).store.messages
      = [{ id := 0, sender := "a1", receiver := "b1", content := "hi",
           messageType := "text", isRead := false, readAt := none,
           status := MsgStatus.sent, createdAt := 7 }] := by
  have h := c4_offline_persist
    { connId := 1, userId := "a1", username := "ann",
      readyState := ReadyState.OPEN }
    { receiverId := some "b1", content := some "hi", messageType := none,
      senderId := none }
    [] { users := [], messages := [], nextId := 0 } 7
    (by decide) (by decide) (by decide) (by decide)
    (by intro rc hrc; simp [mapGet] at hrc)
  exact ⟨h.1, h.2⟩

/-- C5: a `chat_message` that fails validation (missing receiver, missing
or empty content, or self-send) produces an `error` envelope to the sender
and leaves the durable store unchanged. -/
theorem c5_validation_rejection (ws : Conn) (data : MsgData)
    (clients : RegMap) (st : Store) (now : Nat)
    (hws : ws.readyState = ReadyState.OPEN)
    (h : jsFalsy data.receiverId = true ∨ jsFalsy data.content = true ∨
         data.receiverId.getD "" = ws.userId) :
    (handleChatMessage ws data clients st now).store = st ∧
    ∃ emsg, (handleChatMessage ws data clients st now).sends
      = [(ws.connId, Envelope.error emsg now)] := by
  by_cases hb : (jsFalsy data.receiverId || jsFalsy data.content) = true
  · constructor
    · simp [handleChatMessage, hb]
    · exact ⟨"Missing required fields: receiverId and content",
        by simp [handleChatMessage, hb, sendError, sendToClient, hws]⟩
  · have hb' : (jsFalsy data.receiverId || jsFalsy data.content) = false := by
      simpa using hb
    have hself : data.receiverId.getD "" = ws.userId := by
      rcases h with h | h | h
      · exact absurd (by simp [h]) hb
      · exact absurd (by simp [h]) hb
      · exact h
    constructor
    · simp [handleChatMessage, hb', hself]
    · exact ⟨"Cannot send message to yourself",
        by simp [handleChatMessage, hb', hself, sendError, sendToClient, hws]⟩

/-- Witness for C5: a self-send from `a1` to `a1`. -/
theorem c5_validation_rejection_witness :
    (handleChatMessage
      { connId := 1, userId := "a1", username := "ann",
        readyState := ReadyState.OPEN }
      { receiverId := some "a1", content := some "hi", messageType := none,
        senderId := none }
      [] { users := [], messages := [], nextId := 0 } 7).store
      = { users := [], messages := [], nextId := 0 } ∧
    ∃ emsg, (handleChatMessage
      { connId := 1, userId := "a1", username := "ann",
        readyState := ReadyState.OPEN }
      { receiverId := some "a1", content := some "hi", messageType := none,
        senderId := none }
      [] { users := [], messages := [], nextId := 0 } 7).sends
      = [(1, Envelope.error emsg 7)] :=
  c5_validation_rejection
    { connId := 1, userId := "a1", username := "ann",
      readyState := ReadyState.OPEN }
    { receiverId := some "a1", content := some "hi", messageType := none,
      senderId := none }
    [] { users := [], messages := [], nextId := 0 } 7
    (by decide) (Or.inr (Or.inr (by decide)))

/-- C6: `mark_read` against the unread messages of a counterparty replies
`mark_read_success` with `markedCount` equal to the number of matching
unread messages; every matching message ends read, with status `read` and
the single `readAt` value of the call; and an immediately repeated call on
the resulting store replies `markedCount = 0`. -/
theorem c6_mark_read_idempotent (ws : Conn) (data : MsgData)
    (clients : RegMap) (st : Store) (t1 t2 : Nat)
    (hws : ws.readyState = ReadyState.OPEN)
    (hsid : jsFalsy data.senderId = false) :
    ((ws.connId,
        Envelope.markReadSuccess (data.senderId.getD "")
          (st.messages.countP (unreadFrom (data.senderId.getD "") ws.userId)))
      ∈ (handleMarkRead ws data clients st t1).sends) ∧
    (∀ m ∈ st.messages,
        unreadFrom (data.senderId.getD "") ws.userId m = true →
        ∃ m' ∈ (handleMarkRead ws data clients st t1).store.messages,
          m'.id = m.id ∧ m'.isRead = true ∧ m'.status = MsgStatus.read ∧
          m'.readAt = some t1) ∧
    ((ws.connId, Envelope.markReadSuccess (data.senderId.getD "") 0)
      ∈ (handleMarkRead ws data clients
          (handleMarkRead ws data clients st t1).store t2).sends) := by
  simp only [handleMarkRead, hsid, Bool.false_eq_true, if_false, markAsRead]
  refine ⟨?_, ?_, ?_⟩
  · exact List.mem_append_right _ (by simp [sendToClient, hws])
  · intro m hm hmatch
    refine ⟨{ m with isRead := true, readAt := some t1,
                     status := MsgStatus.read }, ?_, rfl, rfl, rfl, rfl⟩
    have := List.mem_map_of_mem
      (fun m => if unreadFrom (data.senderId.getD "") ws.userId m then
        { m with isRead := true, readAt := some t1, status := MsgStatus.read }
      else m) hm
    simpa [hmatch] using this
  · have hzero : (st.messages.map
        (fun m => if unreadFrom (data.senderId.getD "") ws.userId m then
          { m with isRead := true, readAt := some t1,
                   status := MsgStatus.read }
        else m)).countP (unreadFrom (data.senderId.getD "") ws.userId)
        = 0 := by
      rw [List.countP_eq_zero]
      intro m' hm'
      rcases List.mem_map.mp hm' with ⟨m, _, hfm⟩
      by_cases hu : unreadFrom (data.senderId.getD "") ws.userId m = true
      · rw [if_pos hu] at hfm
        rw [← hfm]
        simp [unreadFrom]
      · rw [if_neg hu] at hfm
        rw [← hfm]
        simpa using hu
    rw [hzero]
    exact List.mem_append_right _ (by simp [sendToClient, hws])

/-- Witness for C6: two unread messages from `b1` to `a1` (one already
read) are marked; the reply counts 2, the repeat counts 0. -/
theorem c6_mark_read_idempotent_witness :
    ((3, Envelope.markReadSuccess "b1" 2)
      ∈ (handleMarkRead
          { connId := 3, userId := "a1", username := "ann",
            readyState := ReadyState.OPEN }
          { receiverId := none, content := none, messageType := none,
            senderId := some "b1" }
          []
          { users := [],
            messages :=
              [{ id := 0, sender := "b1", receiver := "a1", content := "x",
                 messageType := "text", isRead := false, readAt := none,
                 status := MsgStatus.sent, createdAt := 1 },
               { id := 1, sender := "b1", receiver := "a1", content := "y",
                 messageType := "text", isRead := false, readAt := none,
                 status := MsgStatus.delivered, createdAt := 2 },
               { id := 2, sender := "b1", receiver := "a1", content := "z",
                 messageType := "text", isRead := true, readAt := some 3,
                 status := MsgStatus.read, createdAt := 3 }],
            nextId := 5 } 9).sends) ∧
    ((3, Envelope.markReadSuccess "b1" 0)
      ∈ (handleMarkRead
          { connId := 3, userId := "a1", username := "ann",
            readyState := ReadyState.OPEN }
          { receiverId := none, content := none, messageType := none,
            senderId := some "b1" }
          []
          (handleMarkRead
            { connId := 3, userId := "a1", username := "ann",
              readyState := ReadyState.OPEN }
            { receiverId := none, content := none, messageType := none,
              senderId := some "b1" }
            []
            { users := [],
              messages :=
                [{ id := 0, sender := "b1", receiver := "a1", content := "x",
                   messageType := "text", isRead := false, readAt := none,
                   status := MsgStatus.sent, createdAt := 1 },
                 { id := 1, sender := "b1", receiver := "a1", content := "y",
                   messageType := "text", isRead := false, readAt := none,
                   status := MsgStatus.delivered, createdAt := 2 },
                 { id := 2, sender := "b1", receiver := "a1", content := "z",
                   messageType := "text", isRead := true, readAt := some 3,
                   status := MsgStatus.read, createdAt := 3 }],
              nextId := 5 } 9).store 11).sends) := by
  have h := c6_mark_read_idempotent
    { connId := 3, userId := "a1", username := "ann",
      readyState := ReadyState.OPEN }
    { receiverId := none, content := none, messageType := none,
      senderId := some "b1" }
    []
    { users := [],
      messages :=
        [{ id := 0, sender := "b1", receiver := "a1", content := "x",
           messageType := "text", isRead := false, readAt := none,
           status := MsgStatus.sent, createdAt := 1 },
         { id := 1, sender := "b1", receiver := "a1", content := "y",
           messageType := "text", isRead := false, readAt := none,
           status := MsgStatus.delivered, createdAt := 2 },
         { id := 2, sender := "b1", receiver := "a1", content := "z",
           messageType := "text", isRead := true, readAt := some 3,
           status := MsgStatus.read, createdAt := 3 }],
      nextId := 5 } 9 11 (by decide) (by decide)
  exact ⟨h.1, h.2.2⟩

/-! ### C7: status monotonicity -/

theorem rank_le_two (s : MsgStatus) : s.rank ≤ 2 := by
  cases s <;> simp [MsgStatus.rank]

/-- Pointwise status-rank comparison of the stored prefix. -/
def StatusLe (old new : List Message) : Prop :=
  List.Forall₂ (fun a b => a.status.rank ≤ b.status.rank) old
    (new.take old.length)

theorem statusLe_same (l : List Message) : StatusLe l l := by
  unfold StatusLe
  rw [List.take_length]
  exact List.forall₂_same.mpr (fun a _ => le_refl _)

theorem statusLe_append (l l2 : List Message) : StatusLe l (l ++ l2) := by
  unfold StatusLe
  rw [List.take_left]
  exact List.forall₂_same.mpr (fun a _ => le_refl _)

theorem statusLe_map (l : List Message) (f : Message → Message)
    (hf : ∀ a ∈ l, a.status.rank ≤ (f a).status.rank) :
    StatusLe l (l.map f) := by
  unfold StatusLe
  have hl : (l.map f).take l.length = l.map f := by
    rw [← List.length_map l f, List.take_length]
  rw [hl]
  exact List.forall₂_map_right_iff.mpr (List.forall₂_same.mpr hf)

theorem statusLe_map_append (l l2 : List Message) (f : Message → Message)
    (hf : ∀ a ∈ l, a.status.rank ≤ (f a).status.rank) :
    StatusLe l ((l ++ l2).map f) := by
  unfold StatusLe
  have hl : ((l ++ l2).map f).take l.length = l.map f := by
    rw [List.map_append, ← List.length_map l f, List.take_left]
  rw [hl]
  exact List.forall₂_map_right_iff.mpr (List.forall₂_same.mpr hf)

/-- `handleChatMessage` never lowers the status of a message already in
the store: it only appends a fresh message, and the delivery update
touches only the fresh id. -/
theorem chatMessage_status_monotone (ws : Conn) (data : MsgData)
    (clients : RegMap) (st : Store) (now : Nat)
    (hfresh : ∀ m ∈ st.messages, m.id < st.nextId) :
    StatusLe st.messages
      (handleChatMessage ws data clients st now).store.messages := by
  by_cases hv : (jsFalsy data.receiverId || jsFalsy data.content) = true
  · simp only [handleChatMessage, hv, if_true]
    exact statusLe_same st.messages
  · have hv' : (jsFalsy data.receiverId || jsFalsy data.content) = false := by
      simpa using hv
    by_cases hs : data.receiverId.getD "" = ws.userId
    · simp only [handleChatMessage, hv', Bool.false_eq_true, if_false,
        if_pos hs]
      exact statusLe_same st.messages
    · rcases hg : mapGet clients (data.receiverId.getD "") with _ | rc
      · simp only [handleChatMessage, hv', Bool.false_eq_true, if_false,
          if_neg hs, hg]
        exact statusLe_append st.messages _
      · by_cases hrc : rc.readyState = ReadyState.OPEN
        · simp only [handleChatMessage, hv', Bool.false_eq_true, if_false,
            if_neg hs, hg, hrc, if_true, updateMessageStatus]
          refine statusLe_map_append st.messages _ _ (fun a ha => ?_)
          have hid : (a.id == st.nextId) = false := by
            simp only [beq_eq_false_iff_ne, ne_eq]
            exact Nat.ne_of_lt (hfresh a ha)
          simp [hid]
        · simp only [handleChatMessage, hv', Bool.false_eq_true, if_false,
            if_neg hs, hg, if_neg hrc]
          exact statusLe_append st.messages _

/-- `handleMarkRead` only moves statuses to `read`, the top of the
order. -/
theorem markRead_status_monotone (ws : Conn) (data : MsgData)
    (clients : RegMap) (st : Store) (now : Nat) :
    StatusLe st.messages
      (handleMarkRead ws data clients st now).store.messages := by
  by_cases hv : jsFalsy data.senderId = true
  · simp only [handleMarkRead, hv, if_true]
    exact statusLe_same st.messages
  · have hv' : jsFalsy data.senderId = false := by simpa using hv
    simp only [handleMarkRead, hv', Bool.false_eq_true, if_false, markAsRead]
    refine statusLe_map st.messages _ (fun a _ => ?_)
    by_cases hu : unreadFrom (data.senderId.getD "") ws.userId a = true
    · simp only [hu, if_true]
      exact le_trans (rank_le_two _) (by simp [MsgStatus.rank])
    · simp only [Bool.not_eq_true] at hu
      simp [hu]

/-- C7: no router operation moves a persisted message's status backwards
in the `sent → delivered → read` order: whatever wire message
`handleMessage` dispatches, every message already in the store keeps a
status of equal or higher rank (fresh message ids assumed, as Mongo
`_id`s are unique). -/
theorem c7_status_monotone (ws : Conn) (msg : WireMsg) (clients : RegMap)
    (st : Store) (now : Nat)
    (hfresh : ∀ m ∈ st.messages, m.id < st.nextId) :
    StatusLe st.messages
      (handleMessage ws msg clients st now).store.messages := by
  by_cases h1 : msg.type = "chat_message"
  · simp only [handleMessage, if_pos h1]
    exact chatMessage_status_monotone ws msg.data clients st now hfresh
  · by_cases h2 : msg.type = "typing_start"
    · simp only [handleMessage, if_neg h1, if_pos h2]
      exact statusLe_same st.messages
    · by_cases h3 : msg.type = "typing_stop"
      · simp only [handleMessage, if_neg h1, if_neg h2, if_pos h3]
        exact statusLe_same st.messages
      · by_cases h4 : msg.type = "mark_read"
        · simp only [handleMessage, if_neg h1, if_neg h2, if_neg h3,
            if_pos h4]
          exact markRead_status_monotone ws msg.data clients st now
        · by_cases h5 : msg.type = "get_online_users"
          · simp only [handleMessage, if_neg h1, if_neg h2, if_neg h3,
              if_neg h4, if_pos h5]
            exact statusLe_same st.messages
          · simp only [handleMessage, if_neg h1, if_neg h2, if_neg h3,
              if_neg h4, if_neg h5]
            exact statusLe_same st.messages

/-- Witness for C7: an online delivery over a store already holding a
read message. -/
theorem c7_status_monotone_witness :
    StatusLe
      [{ id := 0, sender := "b1", receiver := "a1", content := "x",
         messageType := "text", isRead := true, readAt := some 3,
         status := MsgStatus.read, createdAt := 1 }]
      (handleMessage
        { connId := 1, userId := "a1", username := "ann",
          readyState := ReadyState.OPEN }
        { type := "chat_message",
          data := { receiverId := some "b1", content := some "hi",
                    messageType := none, senderId := none } }
        [("b1", { connId := 2, userId := "b1", username := "bob",
                  readyState := ReadyState.OPEN })]
        { users := [],
          messages := [{ id := 0, sender := "b1", receiver := "a1",
                         content := "x", messageType := "text",
                         isRead := true, readAt := some 3,
                         status := MsgStatus.read, createdAt := 1 }],
          nextId := 1 } 9).store.messages :=
  c7_status_monotone
    { connId := 1, userId := "a1", username := "ann",
      readyState := ReadyState.OPEN }
    { type := "chat_message",
      data := { receiverId := some "b1", content := some "hi",
                messageType := none, senderId := none } }
    [("b1", { connId := 2, userId := "b1", username := "bob",
              readyState := ReadyState.OPEN })]
    { users := [],
      messages := [{ id := 0, sender := "b1", receiver := "a1",
                     content := "x", messageType := "text", isRead := true,
                     readAt := some 3, status := MsgStatus.read,
                     createdAt := 1 }],
      nextId := 1 } 9
    (by decide)

/-! ### C8: presence broadcasts -/

theorem foldl_if_append {α β : Type} (p : α → Prop) [DecidablePred p]
    (f : α → β) :
    ∀ (l : List α) (acc : List β),
      l.foldl (fun a c => if p c then a ++ [f c] else a) acc
        = acc ++ (l.filter (fun c => decide (p c))).map f := by
  intro l
  induction l with
  | nil => intro acc; simp
  | cons x xs ih =>
      intro acc
      by_cases hx : p x
      · simp [hx, ih]
      · simp [hx, ih]

/-- The status broadcast reaches exactly the open sockets of other
identities, in `wss.clients` order. -/
theorem broadcastUserStatus_eq (subj uname : String) (isOnline : Bool)
    (wss : List Conn) (now : Nat) :
    broadcastUserStatus subj uname isOnline wss now
      = (wss.filter (fun c =>
          decide (c.readyState = ReadyState.OPEN ∧ c.userId ≠ subj))).map
          (fun c => (c.connId,
            if isOnline then Envelope.userOnline subj uname now
            else Envelope.userOffline subj uname now)) := by
  unfold broadcastUserStatus
  simpa using foldl_if_append
    (fun c => c.readyState = ReadyState.OPEN ∧ c.userId ≠ subj)
    (fun c => (c.connId,
      if isOnline then Envelope.userOnline subj uname now
      else Envelope.userOffline subj uname now)) wss []

/-- The snapshot broadcast reaches exactly the open sockets, in
`wss.clients` order. -/
theorem broadcastOnlineUsers_eq (wss : List Conn) (st : Store) (now : Nat) :
    broadcastOnlineUsers wss st now
      = (wss.filter (fun c =>
          decide (c.readyState = ReadyState.OPEN))).map
          (fun c => (c.connId,
            Envelope.onlineUsers ((onlineUsersOf st).map (fun u => u.id))
              (onlineUsersOf st).length now)) := by
  unfold broadcastOnlineUsers
  simpa using foldl_if_append
    (fun c => c.readyState = ReadyState.OPEN)
    (fun c => (c.connId,
      Envelope.onlineUsers ((onlineUsersOf st).map (fun u => u.id))
        (onlineUsersOf st).length now)) wss []

/-- A `sendToClient` output can only be the addressed pair. -/
theorem mem_sendToClient (c : Conn) (e : Envelope) (p : Nat × Envelope)
    (h : p ∈ sendToClient c e) : p = (c.connId, e) := by
  unfold sendToClient at h
  split at h
  · simpa using h
  · simp at h

/-- C8: on deregistration the `user_offline` broadcast reaches every open
connection except those of the subject identity, which receive none; the
refreshed `online_users` snapshot reaches every open connection,
including the subject's; and on registration (successful handshake) the
same holds for `user_online` and the snapshot: every open connection of
another identity receives `user_online`, the subject identity's own
connections receive no `user_online` at all, and every open connection —
the subject's included — receives the snapshot.  The per-recipient
conclusions hold for an arbitrary client set — in particular one that
also contains closed sockets, which are skipped (the code's only handled
send-failure mode, via the `readyState` guard) without affecting the
remaining recipients. -/
theorem c8_presence_broadcasts (ws : Conn) (clients : RegMap)
    (wss : List Conn) (st : Store) (now : Nat)
    (hnodup : (wss.map Conn.connId).Nodup) :
    (∀ c ∈ wss, c.readyState = ReadyState.OPEN → ¬ c.userId = ws.userId →
        Ev.sent c.connId (Envelope.userOffline ws.userId ws.username now)
          ∈ (handleClose ws clients wss st now).events) ∧
    (∀ c ∈ wss, c.userId = ws.userId →
        Ev.sent c.connId (Envelope.userOffline ws.userId ws.username now)
          ∉ (handleClose ws clients wss st now).events) ∧
    (∀ c ∈ wss, c.readyState = ReadyState.OPEN →
        ∃ us tot, Ev.sent c.connId (Envelope.onlineUsers us tot now)
          ∈ (handleClose ws clients wss st now).events) ∧
    (∀ c ∈ wss, ¬ c.readyState = ReadyState.OPEN → ∀ e : Envelope,
        Ev.sent c.connId e ∉ (handleClose ws clients wss st now).events) ∧
    (∀ (t : String) (verify : String → Option String) (raw : RawConn)
        (uid : String) (user : UserRec),
        verify t = some uid → findUser st uid = some user →
        (∀ c ∈ wss, c.readyState = ReadyState.OPEN → ¬ c.userId = user.id →
            Ev.sent c.connId (Envelope.userOnline user.id user.username now)
              ∈ (handshake (some t) verify false raw clients wss st
                  now).events) ∧
        (∀ c ∈ wss, c.userId = user.id →
            Ev.sent c.connId (Envelope.userOnline user.id user.username now)
              ∉ (handshake (some t) verify false raw clients wss st
                  now).events) ∧
        (∀ c ∈ wss, c.readyState = ReadyState.OPEN →
            ∃ us tot, Ev.sent c.connId (Envelope.onlineUsers us tot now)
              ∈ (handshake (some t) verify false raw clients wss st
                  now).events)) := by
  have hinj := List.inj_on_of_nodup_map hnodup
  refine ⟨?_, ?_, ?_, ?_, ?_⟩
  · intro c hc hopen hne
    simp only [handleClose]
    refine List.mem_append_left _ (List.mem_append_right _ ?_)
    rw [broadcastUserStatus_eq, List.map_map]
    refine List.mem_map.mpr ⟨c, List.mem_filter.mpr ⟨hc, ?_⟩, rfl⟩
    simp [hopen, hne]
  · intro c hc hcsubj h
    simp only [handleClose, List.mem_append] at h
    rcases h with (h | h) | h
    · simp at h
    · rw [broadcastUserStatus_eq, List.map_map] at h
      rcases List.mem_map.mp h with ⟨c', hc', he⟩
      have hfil := List.mem_filter.mp hc'
      have hprop := of_decide_eq_true hfil.2
      simp only [Function.comp, sendEv, Ev.sent.injEq] at he
      have hcc : c' = c := hinj hfil.1 hc he.1
      exact hprop.2 (hcc ▸ hcsubj)
    · rw [broadcastOnlineUsers_eq, List.map_map] at h
      rcases List.mem_map.mp h with ⟨c', _, he⟩
      simp [Function.comp, sendEv] at he
  · intro c hc hopen
    refine ⟨(onlineUsersOf (setPresence st ws.userId false (some now))).map
        (fun u => u.id),
      (onlineUsersOf (setPresence st ws.userId false (some now))).length,
      ?_⟩
    simp only [handleClose]
    refine List.mem_append_right _ ?_
    rw [broadcastOnlineUsers_eq, List.map_map]
    refine List.mem_map.mpr ⟨c, List.mem_filter.mpr ⟨hc, ?_⟩, rfl⟩
    simp [hopen]
  · intro c hc hclosed e h
    simp only [handleClose, List.mem_append] at h
    rcases h with (h | h) | h
    · simp at h
    · rw [broadcastUserStatus_eq, List.map_map] at h
      rcases List.mem_map.mp h with ⟨c', hc', he⟩
      have hfil := List.mem_filter.mp hc'
      have hprop := of_decide_eq_true hfil.2
      simp only [Function.comp, sendEv, Ev.sent.injEq] at he
      have hcc : c' = c := hinj hfil.1 hc he.1
      exact hclosed (hcc ▸ hprop.1)
    · rw [broadcastOnlineUsers_eq, List.map_map] at h
      rcases List.mem_map.mp h with ⟨c', hc', he⟩
      have hfil := List.mem_filter.mp hc'
      have hprop := of_decide_eq_true hfil.2
      simp only [Function.comp, sendEv, Ev.sent.injEq] at he
      have hcc : c' = c := hinj hfil.1 hc he.1
      exact hclosed (hcc ▸ hprop)
  · intro t verify raw uid user hv hf
    refine ⟨?_, ?_, ?_⟩
    · intro c hc hopen hne
      simp only [handshake, hv, hf]
      refine List.mem_append_left _
        (List.mem_append_right _ ?_)
      rw [broadcastUserStatus_eq, List.map_map]
      refine List.mem_map.mpr ⟨c, List.mem_filter.mpr ⟨hc, ?_⟩, rfl⟩
      simp [hopen, hne]
    · intro c hc hcsubj h
      have hdis :
          Ev.sent c.connId (Envelope.userOnline user.id user.username now)
            ∈ ((sendToClient
                { connId := raw.connId, userId := user.id,
                  username := user.username,
                  readyState := raw.readyState }
                (Envelope.connectionEstablished user.id
                  user.username)).map sendEv)
          ∨ Ev.sent c.connId (Envelope.userOnline user.id user.username now)
            ∈ (broadcastUserStatus user.id user.username true wss
                now).map sendEv
          ∨ Ev.sent c.connId (Envelope.userOnline user.id user.username now)
            ∈ (broadcastOnlineUsers wss (setPresence st user.id true none)
                now).map sendEv := by
        rcases hg : mapGet clients user.id with _ | old
        · simp only [handshake, hv, hf, hg, Bool.false_eq_true, if_false,
            List.mem_append] at h
          rcases h with (((h | h) | h) | h) | h
          · simp at h
          · simp at h
          · exact Or.inl h
          · exact Or.inr (Or.inl h)
          · exact Or.inr (Or.inr h)
        · simp only [handshake, hv, hf, hg, Bool.false_eq_true, if_false,
            List.mem_append] at h
          rcases h with (((h | h) | h) | h) | h
          · simp at h
          · simp at h
          · exact Or.inl h
          · exact Or.inr (Or.inl h)
          · exact Or.inr (Or.inr h)
      rcases hdis with h | h | h
      · rcases List.mem_map.mp h with ⟨p, hp, hpe⟩
        have hpc := mem_sendToClient _ _ _ hp
        rw [hpc] at hpe
        simp [sendEv] at hpe
      · rw [broadcastUserStatus_eq, List.map_map] at h
        rcases List.mem_map.mp h with ⟨c', hc', he⟩
        have hfil := List.mem_filter.mp hc'
        have hprop := of_decide_eq_true hfil.2
        simp only [Function.comp, sendEv, Ev.sent.injEq] at he
        have hcc : c' = c := hinj hfil.1 hc he.1
        exact hprop.2 (hcc ▸ hcsubj)
      · rw [broadcastOnlineUsers_eq, List.map_map] at h
        rcases List.mem_map.mp h with ⟨c', _, he⟩
        simp [Function.comp, sendEv] at he
    · intro c hc hopen
      refine ⟨(onlineUsersOf (setPresence st user.id true none)).map
          (fun u => u.id),
        (onlineUsersOf (setPresence st user.id true none)).length, ?_⟩
      simp only [handshake, hv, hf]
      refine List.mem_append_right _ ?_
      rw [broadcastOnlineUsers_eq, List.map_map]
      refine List.mem_map.mpr ⟨c, List.mem_filter.mpr ⟨hc, ?_⟩, rfl⟩
      simp [hopen]

/-- Witness for C8: subject `a1` disconnects among an open peer `b1` and a
closed socket `c1`; `b1` receives `user_offline` and the snapshot, `a1`'s
own socket does not receive `user_offline`.  Then `a1` registers again:
`b1` receives `user_online`, `a1`'s own open socket does not receive
`user_online` but does receive the snapshot. -/
theorem c8_presence_broadcasts_witness :
    (Ev.sent 2 (Envelope.userOffline "a1" "ann" 9)
      ∈ (handleClose
          { connId := 1, userId := "a1", username := "ann",
            readyState := ReadyState.OPEN }
          []
          [{ connId := 1, userId := "a1", username := "ann",
             readyState := ReadyState.OPEN },
           { connId := 2, userId := "b1", username := "bob",
             readyState := ReadyState.OPEN },
           { connId := 3, userId := "c1", username := "cid",
             readyState := ReadyState.CLOSED }]
          { users := [{ id := "a1", username := "ann", isOnline := true,
                        lastSeen := none },
                      { id := "b1", username := "bob", isOnline := true,
                        lastSeen := none }],
            messages := [], nextId := 0 } 9).events) ∧
    (Ev.sent 1 (Envelope.userOffline "a1" "ann" 9)
      ∉ (handleClose
          { connId := 1, userId := "a1", username := "ann",
            readyState := ReadyState.OPEN }
          []
          [{ connId := 1, userId := "a1", username := "ann",
             readyState := ReadyState.OPEN },
           { connId := 2, userId := "b1", username := "bob",
             readyState := ReadyState.OPEN },
           { connId := 3, userId := "c1", username := "cid",
             readyState := ReadyState.CLOSED }]
          { users := [{ id := "a1", username := "ann", isOnline := true,
                        lastSeen := none },
                      { id := "b1", username := "bob", isOnline := true,
                        lastSeen := none }],
            messages := [], nextId := 0 } 9).events) ∧
    (∃ us tot, Ev.sent 2 (Envelope.onlineUsers us tot 9)
      ∈ (handleClose
          { connId := 1, userId := "a1", username := "ann",
            readyState := ReadyState.OPEN }
          []
          [{ connId := 1, userId := "a1", username := "ann",
             readyState := ReadyState.OPEN },
           { connId := 2, userId := "b1", username := "bob",
             readyState := ReadyState.OPEN },
           { connId := 3, userId := "c1", username := "cid",
             readyState := ReadyState.CLOSED }]
          { users := [{ id := "a1", username := "ann", isOnline := true,
                        lastSeen := none },
                      { id := "b1", username := "bob", isOnline := true,
                        lastSeen := none }],
            messages := [], nextId := 0 } 9).events) ∧
    (Ev.sent 2 (Envelope.userOnline "a1" "ann" 9)
      ∈ (handshake (some "tok")
          (fun s => if s = "tok" then some "a1" else none) false
          { connId := 9, readyState := ReadyState.OPEN }
          []
          [{ connId := 1, userId := "a1", username := "ann",
             readyState := ReadyState.OPEN },
           { connId := 2, userId := "b1", username := "bob",
             readyState := ReadyState.OPEN },
           { connId := 3, userId := "c1", username := "cid",
             readyState := ReadyState.CLOSED }]
          { users := [{ id := "a1", username := "ann", isOnline := true,
                        lastSeen := none },
                      { id := "b1", username := "bob", isOnline := true,
                        lastSeen := none }],
            messages := [], nextId := 0 } 9).events) ∧
    (Ev.sent 1 (Envelope.userOnline "a1" "ann" 9)
      ∉ (handshake (some "tok")
          (fun s => if s = "tok" then some "a1" else none) false
          { connId := 9, readyState := ReadyState.OPEN }
          []
          [{ connId := 1, userId := "a1", username := "ann",
             readyState := ReadyState.OPEN },
           { connId := 2, userId := "b1", username := "bob",
             readyState := ReadyState.OPEN },
           { connId := 3, userId := "c1", username := "cid",
             readyState := ReadyState.CLOSED }]
          { users := [{ id := "a1", username := "ann", isOnline := true,
                        lastSeen := none },
                      { id := "b1", username := "bob", isOnline := true,
                        lastSeen := none }],
            messages := [], nextId := 0 } 9).events) ∧
    (∃ us tot, Ev.sent 1 (Envelope.onlineUsers us tot 9)
      ∈ (handshake (some "tok")
          (fun s => if s = "tok" then some "a1" else none) false
          { connId := 9, readyState := ReadyState.OPEN }
          []
          [{ connId := 1, userId := "a1", username := "ann",
             readyState := ReadyState.OPEN },
           { connId := 2, userId := "b1", username := "bob",
             readyState := ReadyState.OPEN },
           { connId := 3, userId := "c1", username := "cid",
             readyState := ReadyState.CLOSED }]
          { users := [{ id := "a1", username := "ann", isOnline := true,
                        lastSeen := none },
                      { id := "b1", username := "bob", isOnline := true,
                        lastSeen := none }],
            messages := [], nextId := 0 } 9).events) := by
  have h := c8_presence_broadcasts
    { connId := 1, userId := "a1", username := "ann",
      readyState := ReadyState.OPEN }
    []
    [{ connId := 1, userId := "a1", username := "ann",
       readyState := ReadyState.OPEN },
     { connId := 2, userId := "b1", username := "bob",
       readyState := ReadyState.OPEN },
     { connId := 3, userId := "c1", username := "cid",
       readyState := ReadyState.CLOSED }]
    { users := [{ id := "a1", username := "ann", isOnline := true,
                  lastSeen := none },
                { id := "b1", username := "bob", isOnline := true,
                  lastSeen := none }],
      messages := [], nextId := 0 } 9
    (by decide)
  have hreg := h.2.2.2.2 "tok"
    (fun s => if s = "tok" then some "a1" else none)
    { connId := 9, readyState := ReadyState.OPEN } "a1"
    { id := "a1", username := "ann", isOnline := true, lastSeen := none }
    (by decide) (by decide)
  refine ⟨h.1 { connId := 2, userId := "b1", username := "bob",
                readyState := ReadyState.OPEN }
      (by decide) (by decide) (by decide),
    h.2.1 { connId := 1, userId := "a1", username := "ann",
            readyState := ReadyState.OPEN }
      (by decide) (by decide),
    h.2.2.1 { connId := 2, userId := "b1", username := "bob",
              readyState := ReadyState.OPEN }
      (by decide) (by decide),
    hreg.1 { connId := 2, userId := "b1", username := "bob",
             readyState := ReadyState.OPEN }
      (by decide) (by decide) (by decide),
    hreg.2.1 { connId := 1, userId := "a1", username := "ann",
               readyState := ReadyState.OPEN }
      (by decide) (by decide),
    hreg.2.2 { connId := 1, userId := "a1", username := "ann",
               readyState := ReadyState.OPEN }
      (by decide) (by decide)⟩

/-! ### C9: handshake rejection codes -/

/-- A handshake attempt that was rejected: the socket was closed with the
given code, the registry and store are untouched, and no registration and
no presence event happened. -/
def RejectedWith (r : StepResult) (clients : RegMap) (st : Store)
    (cid code : Nat) : Prop :=
  r.clients = clients ∧ r.store = st ∧
  Ev.closedConn cid code ∈ r.events ∧
  (∀ u c, Ev.registered u c ∉ r.events) ∧
  (∀ u b, Ev.presence u b ∉ r.events)

theorem rejectedWith_mk (clients : RegMap) (st : Store) (cid code : Nat)
    (sends : List (Nat × Envelope)) :
    RejectedWith
      { clients := clients, store := st,
        events := sends.map sendEv ++ [Ev.closedConn cid code] }
      clients st cid code := by
  refine ⟨rfl, rfl, List.mem_append_right _ (List.mem_singleton.mpr rfl),
    ?_, ?_⟩
  · intro u c h
    rcases List.mem_append.mp h with h | h
    · rcases List.mem_map.mp h with ⟨p, _, hp⟩
      simp [sendEv] at hp
    · simp at h
  · intro u b h
    rcases List.mem_append.mp h with h | h
    · rcases List.mem_map.mp h with ⟨p, _, hp⟩
      simp [sendEv] at hp
    · simp at h

/-- C9: each handshake rejection cause closes the socket with its own
code — 4001 missing credential, 4002 invalid or expired credential,
4003 identity not found, 4004 store error during the handshake, 4005
supersession by a newer connection — the five codes are pairwise
distinct, and a rejected connection is never inserted into the registry
and triggers no presence change. -/
theorem c9_rejection_codes (raw : RawConn) (clients : RegMap)
    (wss : List Conn) (st : Store) (now : Nat)
    (verify : String → Option String) :
    RejectedWith (handshake none verify false raw clients wss st now)
      clients st raw.connId 4001 ∧
    (∀ t, verify t = none →
        RejectedWith
          (handshake (some t) verify false raw clients wss st now)
          clients st raw.connId 4002) ∧
    (∀ t uid, verify t = some uid →
        RejectedWith
          (handshake (some t) verify true raw clients wss st now)
          clients st raw.connId 4004) ∧
    (∀ t uid, verify t = some uid → findUser st uid = none →
        RejectedWith
          (handshake (some t) verify false raw clients wss st now)
          clients st raw.connId 4003) ∧
    (∀ t uid user old, verify t = some uid → findUser st uid = some user →
        mapGet clients user.id = some old →
        Ev.closedConn old.connId 4005
          ∈ (handshake (some t) verify false raw clients wss st
              now).events) ∧
    List.Nodup [4001, 4002, 4003, 4004, 4005] := by
  refine ⟨?_, ?_, ?_, ?_, ?_, by decide⟩
  · exact rejectedWith_mk clients st raw.connId 4001 _
  · intro t ht
    have he : handshake (some t) verify false raw clients wss st now
        = { clients := clients, store := st,
            events := (sendError (rawAsConn raw)
              "Invalid or expired token. Please login again." now).map sendEv
              ++ [Ev.closedConn raw.connId 4002] } := by
      simp [handshake, ht]
    rw [he]
    exact rejectedWith_mk clients st raw.connId 4002 _
  · intro t uid ht
    have he : handshake (some t) verify true raw clients wss st now
        = { clients := clients, store := st,
            events := (sendError (rawAsConn raw)
              "Server error during authentication." now).map sendEv
              ++ [Ev.closedConn raw.connId 4004] } := by
      simp [handshake, ht]
    rw [he]
    exact rejectedWith_mk clients st raw.connId 4004 _
  · intro t uid ht hf
    have he : handshake (some t) verify false raw clients wss st now
        = { clients := clients, store := st,
            events := (sendError (rawAsConn raw)
              "User not found." now).map sendEv
              ++ [Ev.closedConn raw.connId 4003] } := by
      simp [handshake, ht, hf]
    rw [he]
    exact rejectedWith_mk clients st raw.connId 4003 _
  · intro t uid user old ht hf hold
    simp [handshake, ht, hf, hold]

/-- Witness for C9 at concrete inputs: all five causes exercised against
one registry and store. -/
theorem c9_rejection_codes_witness :
    (RejectedWith
      (handshake none
        (fun t => if t = "tok" then some "u1"
          else if t = "tok2" then some "ghost" else none) false
        { connId := 7, readyState := ReadyState.OPEN }
        [("u1", { connId := 4, userId := "u1", username := "alice",
                  readyState := ReadyState.OPEN })]
        []
        { users := [{ id := "u1", username := "alice", isOnline := false,
                      lastSeen := none }],
          messages := [], nextId := 0 } 0)
      [("u1", { connId := 4, userId := "u1", username := "alice",
                readyState := ReadyState.OPEN })]
      { users := [{ id := "u1", username := "alice", isOnline := false,
                    lastSeen := none }],
        messages := [], nextId := 0 } 7 4001) ∧
    (RejectedWith
      (handshake (some "bad")
        (fun t => if t = "tok" then some "u1"
          else if t = "tok2" then some "ghost" else none) false
        { connId := 7, readyState := ReadyState.OPEN }
        [("u1", { connId := 4, userId := "u1", username := "alice",
                  readyState := ReadyState.OPEN })]
        []
        { users := [{ id := "u1", username := "alice", isOnline := false,
                      lastSeen := none }],
          messages := [], nextId := 0 } 0)
      [("u1", { connId := 4, userId := "u1", username := "alice",
                readyState := ReadyState.OPEN })]
      { users := [{ id := "u1", username := "alice", isOnline := false,
                    lastSeen := none }],
        messages := [], nextId := 0 } 7 4002) ∧
    (RejectedWith
      (handshake (some "tok")
        (fun t => if t = "tok" then some "u1"
          else if t = "tok2" then some "ghost" else none) true
        { connId := 7, readyState := ReadyState.OPEN }
        [("u1", { connId := 4, userId := "u1", username := "alice",
                  readyState := ReadyState.OPEN })]
        []
        { users := [{ id := "u1", username := "alice", isOnline := false,
                      lastSeen := none }],
          messages := [], nextId := 0 } 0)
      [("u1", { connId := 4, userId := "u1", username := "alice",
                readyState := ReadyState.OPEN })]
      { users := [{ id := "u1", username := "alice", isOnline := false,
                    lastSeen := none }],
        messages := [], nextId := 0 } 7 4004) ∧
    (RejectedWith
      (handshake (some "tok2")
        (fun t => if t = "tok" then some "u1"
          else if t = "tok2" then some "ghost" else none) false
        { connId := 7, readyState := ReadyState.OPEN }
        [("u1", { connId := 4, userId := "u1", username := "alice",
                  readyState := ReadyState.OPEN })]
        []
        { users := [{ id := "u1", username := "alice", isOnline := false,
                      lastSeen := none }],
          messages := [], nextId := 0 } 0)
      [("u1", { connId := 4, userId := "u1", username := "alice",
                readyState := ReadyState.OPEN })]
      { users := [{ id := "u1", username := "alice", isOnline := false,
                    lastSeen := none }],
        messages := [], nextId := 0 } 7 4003) ∧
    (Ev.closedConn 4 4005
      ∈ (handshake (some "tok")
          (fun t => if t = "tok" then some "u1"
            else if t = "tok2" then some "ghost" else none) false
          { connId := 7, readyState := ReadyState.OPEN }
          [("u1", { connId := 4, userId := "u1", username := "alice",
                    readyState := ReadyState.OPEN })]
          []
          { users := [{ id := "u1", username := "alice", isOnline := false,
                        lastSeen := none }],
            messages := [], nextId := 0 } 0).events) := by
  have h := c9_rejection_codes
    { connId := 7, readyState := ReadyState.OPEN }
    [("u1", { connId := 4, userId := "u1", username := "alice",
              readyState := ReadyState.OPEN })]
    []
    { users := [{ id := "u1", username := "alice", isOnline := false,
                  lastSeen := none }],
      messages := [], nextId := 0 } 0
    (fun t => if t = "tok" then some "u1"
      else if t = "tok2" then some "ghost" else none)
  exact ⟨h.1, h.2.1 "bad" (by decide), h.2.2.1 "tok" "u1" (by decide),
    h.2.2.2.1 "tok2" "ghost" (by decide) (by decide),
    h.2.2.2.2.1 "tok" "u1"
      { id := "u1", username := "alice", isOnline := false,
        lastSeen := none }
      { connId := 4, userId := "u1", username := "alice",
        readyState := ReadyState.OPEN }
      (by decide) (by decide) (by decide)⟩

end WsChat
